import Mathlib

/-!
Verification development for the websockify relay core (websockify.go).

The two forwarder loops, the pair supervisor, the HTTP handler and the
serve entry point are shallowly embedded as executable Lean functions.
Each forwarder is modelled as a function from a finite environment trace
(the results the kernel and the peer would deliver on each loop
iteration) to the list of observable actions the loop performs, in
order, together with the reason the loop returned. The supervisor and
its two forwarder tasks are modelled as an interleaved transition
system driven by a schedule of labels.
-/

namespace Websockify

/-- Message type constants of the gorilla websocket library:
TextMessage = 1, BinaryMessage = 2. -/
def TextMessage : Nat := 1

/-- BinaryMessage opcode constant, the type forwardTCP passes to
WriteMessage. -/
def BinaryMessage : Nat := 2

/-- Count of list elements satisfying a boolean predicate. -/
def countB (p : α → Bool) : List α → Nat
  | [] => 0
  | e :: rest => (if p e then 1 else 0) + countB p rest

/-- Boolean check that, after every element satisfying stop, no later
element satisfies w. -/
def noWriteAfter (stop w : α → Bool) : List α → Bool
  | [] => true
  | e :: rest =>
      (if stop e then rest.all (fun x => !w x) else true) && noWriteAfter stop w rest

/-! ### forwardTCP: the TCP to WebSocket forwarder -/

/-- Outcome of one tcpConn.Read call: ok with the bytes read (err nil),
a net.Error whose Timeout() is true, or any other error (including EOF). -/
inductive TCPReadResult where
  | ok (data : List Nat)
  | timeout
  | readErr
deriving DecidableEq

/-- Environment of one iteration of the forwardTCP loop: the result of
the nonblocking ctx.Done() poll at the top, the result of the Read, the
result of the ctx.Done() poll inside the timeout branch, and whether
wsConn.WriteMessage returns an error. -/
structure TCPEnvStep where
  ctxDone : Bool
  read : TCPReadResult
  ctxDoneAfterTimeout : Bool
  wsWriteErr : Bool
deriving DecidableEq

/-- Observable actions of forwardTCP, in program order. The doneSignal
event is the nonblocking send on the done channel performed by the
deferred function when the loop returns. -/
inductive TCPEvent where
  | setDeadline
  | readOk (data : List Nat)
  | readTimeout
  | readFail
  | ctxCancelled
  | wsWrite (msgType : Nat) (data : List Nat) (ok : Bool)
  | doneSignal
deriving DecidableEq

/-- Why the forwardTCP loop returned; outOfSteps means the environment
trace was exhausted while the loop was still running. -/
inductive TCPExit where
  | cancelled
  | cancelledOnTimeout
  | readError
  | writeError
  | outOfSteps
deriving DecidableEq

/-- Model of forwardTCP (websockify.go lines 155-194). Each iteration:
poll ctx.Done with default; set a read deadline; Read; on a timeout
error re-poll ctx.Done and either return or continue; on another error
log and return; otherwise WriteMessage(BinaryMessage, buffer[0:n]) and
return on write error. The deferred function emits doneSignal on every
return path. -/
def forwardTCP : List TCPEnvStep → List TCPEvent × TCPExit
  | [] => ([], .outOfSteps)
  | s :: rest =>
    if s.ctxDone then
      ([.ctxCancelled, .doneSignal], .cancelled)
    else
      match s.read with
      | .timeout =>
        if s.ctxDoneAfterTimeout then
          ([.setDeadline, .readTimeout, .ctxCancelled, .doneSignal], .cancelledOnTimeout)
        else
          (.setDeadline :: .readTimeout :: (forwardTCP rest).1, (forwardTCP rest).2)
      | .readErr => ([.setDeadline, .readFail, .doneSignal], .readError)
      | .ok data =>
        if s.wsWriteErr then
          ([.setDeadline, .readOk data, .wsWrite BinaryMessage data false, .doneSignal],
           .writeError)
        else
          (.setDeadline :: .readOk data :: .wsWrite BinaryMessage data true :: (forwardTCP rest).1,
           (forwardTCP rest).2)

/-- The WriteMessage calls of a forwardTCP trace: message type and payload. -/
def wsWriteCalls : List TCPEvent → List (Nat × List Nat)
  | [] => []
  | .wsWrite t d _ :: rest => (t, d) :: wsWriteCalls rest
  | _ :: rest => wsWriteCalls rest

/-- The payloads of the successful TCP reads of a forwardTCP trace. -/
def okReads : List TCPEvent → List (List Nat)
  | [] => []
  | .readOk d :: rest => d :: okReads rest
  | _ :: rest => okReads rest

/-- Stop observations of forwardTCP: a non-timeout read error, or an
observation that the context is cancelled. -/
def isStopTCP : TCPEvent → Bool
  | .readFail => true
  | .ctxCancelled => true
  | _ => false

/-- Is this event a WriteMessage call. -/
def isWsWriteEv : TCPEvent → Bool
  | .wsWrite _ _ _ => true
  | _ => false

/-- Is this event the done signal. -/
def isDoneSignalTCP : TCPEvent → Bool
  | .doneSignal => true
  | _ => false

/-! ### forwardWeb: the WebSocket to TCP forwarder -/

/-- Outcome of one wsConn.ReadMessage call: ok with the message type
and payload (err nil), a close error matching CloseGoingAway or
CloseAbnormalClosure, a net.Error whose Timeout() is true, or any
other error. -/
inductive WSReadResult where
  | ok (msgType : Nat) (data : List Nat)
  | closeFrame
  | timeout
  | readErr
deriving DecidableEq

/-- Environment of one iteration of the forwardWeb loop. The panics
flag means the body of this iteration raises a runtime panic, which
the deferred recover catches. -/
structure WebEnvStep where
  ctxDone : Bool
  panics : Bool
  read : WSReadResult
  ctxDoneAfterTimeout : Bool
  tcpWriteErr : Bool
deriving DecidableEq

/-- Observable actions of forwardWeb, in program order. The doneSignal
event is the nonblocking send on the done channel performed by the
deferred function when the loop returns, also after a recovered panic. -/
inductive WebEvent where
  | setDeadline
  | recvOk (msgType : Nat) (data : List Nat)
  | recvClose
  | recvTimeout
  | recvFail
  | ctxCancelled
  | panicRecovered
  | tcpWrite (data : List Nat) (ok : Bool)
  | doneSignal
deriving DecidableEq

/-- Why the forwardWeb loop returned. -/
inductive WebExit where
  | cancelled
  | cancelledOnTimeout
  | closedByPeer
  | readError
  | writeError
  | panicked
  | outOfSteps
deriving DecidableEq

/-- Model of forwardWeb (websockify.go lines 196-241). Each iteration:
poll ctx.Done with default; set a read deadline; ReadMessage discarding
the message type; on a GoingAway or AbnormalClosure close error log and
return; on a timeout error re-poll ctx.Done and either return or
continue; on another error log and return; otherwise Write the payload
to TCP and return on write error. The deferred function recovers a
panic and emits doneSignal on every return path. -/
def forwardWeb : List WebEnvStep → List WebEvent × WebExit
  | [] => ([], .outOfSteps)
  | s :: rest =>
    if s.panics then
      ([.panicRecovered, .doneSignal], .panicked)
    else if s.ctxDone then
      ([.ctxCancelled, .doneSignal], .cancelled)
    else
      match s.read with
      | .closeFrame => ([.setDeadline, .recvClose, .doneSignal], .closedByPeer)
      | .timeout =>
        if s.ctxDoneAfterTimeout then
          ([.setDeadline, .recvTimeout, .ctxCancelled, .doneSignal], .cancelledOnTimeout)
        else
          (.setDeadline :: .recvTimeout :: (forwardWeb rest).1, (forwardWeb rest).2)
      | .readErr => ([.setDeadline, .recvFail, .doneSignal], .readError)
      | .ok t d =>
        if s.tcpWriteErr then
          ([.setDeadline, .recvOk t d, .tcpWrite d false, .doneSignal], .writeError)
        else
          (.setDeadline :: .recvOk t d :: .tcpWrite d true :: (forwardWeb rest).1,
           (forwardWeb rest).2)

/-- The payloads of the tcpConn.Write calls of a forwardWeb trace. -/
def tcpWriteCalls : List WebEvent → List (List Nat)
  | [] => []
  | .tcpWrite d _ :: rest => d :: tcpWriteCalls rest
  | _ :: rest => tcpWriteCalls rest

/-- The received WebSocket messages of a forwardWeb trace, with their
message type and payload. -/
def recvMsgs : List WebEvent → List (Nat × List Nat)
  | [] => []
  | .recvOk t d :: rest => (t, d) :: recvMsgs rest
  | _ :: rest => recvMsgs rest

/-- Stop observations of forwardWeb: a close error, another non-timeout
receive error, or an observation that the context is cancelled. -/
def isStopWeb : WebEvent → Bool
  | .recvClose => true
  | .recvFail => true
  | .ctxCancelled => true
  | _ => false

/-- Is this event a TCP Write call. -/
def isTcpWriteEv : WebEvent → Bool
  | .tcpWrite _ _ => true
  | _ => false

/-- Is this event the done signal. -/
def isDoneSignalWeb : WebEvent → Bool
  | .doneSignal => true
  | _ => false

/-! ### The done channel and the pair supervisor -/

/-- A buffered channel of unit values: its capacity and the number of
values currently buffered. -/
structure Chan where
  cap : Nat
  buf : Nat
deriving DecidableEq

/-- The nonblocking send performed by select with a default case: the
value is enqueued exactly when the buffer is below capacity; the
operation never blocks either way. Returns the new channel and whether
the value was enqueued. -/
def Chan.trySend (c : Chan) : Chan × Bool :=
  if c.buf < c.cap then ({ c with buf := c.buf + 1 }, true) else (c, false)

/-- A plain (blocking) send on a buffered channel with no waiting
receiver would block exactly when the buffer is at capacity. -/
def Chan.sendWouldBlock (c : Chan) : Bool :=
  decide (c.cap ≤ c.buf)

/-- The done channel created by handleConnection:
make(chan struct, 2), capacity 2, initially empty. -/
def mkDoneChan : Chan := { cap := 2, buf := 0 }

/-- Whether an abstract forwarder task is still running or has
returned. -/
inductive FwdPhase where
  | running
  | returned
deriving DecidableEq

/-- Interleaved state of one handleConnection call and its two
forwarder tasks: the parent token, the explicit cancel of the child
token, the done channel, the number of Close calls performed on each
endpoint, whether handleConnection has returned, and the phase of each
forwarder task. -/
structure PairState where
  parentCancelled : Bool
  cancelCalled : Bool
  done : Chan
  tcpCloseCount : Nat
  wsCloseCount : Nat
  supReturned : Bool
  fwdTCPPhase : FwdPhase
  fwdWebPhase : FwdPhase
deriving DecidableEq

/-- The child context connCtx is done when the parent is cancelled or
cancel has been called. -/
def connCtxDone (s : PairState) : Bool :=
  s.parentCancelled || s.cancelCalled

/-- State at the start of handleConnection, after the done channel is
created and the two forwarder goroutines are launched. -/
def initPairState : PairState :=
  { parentCancelled := false
    cancelCalled := false
    done := mkDoneChan
    tcpCloseCount := 0
    wsCloseCount := 0
    supReturned := false
    fwdTCPPhase := .running
    fwdWebPhase := .running }

/-- Scheduler labels: the parent token is cancelled; a forwarder loop
returns (its deferred function sends on done without blocking); the
supervisor select wakes on the done channel; the supervisor select
wakes on connCtx.Done. -/
inductive PairLabel where
  | cancelParent
  | fwdTCPReturn
  | fwdWebReturn
  | supWakeDone
  | supWakeCtx
deriving DecidableEq

/-- One interleaving step of the pair system. A forwarder may return at
any time while running, since a peer-side error can occur at any time.
When the supervisor wakes, handleConnection runs to completion: the
deferred cleanup closes the TCP endpoint then the WebSocket endpoint,
and the deferred cancel cancels the child token. A label whose guard
does not hold leaves the state unchanged. -/
def pairStep (s : PairState) : PairLabel → PairState
  | .cancelParent => { s with parentCancelled := true }
  | .fwdTCPReturn =>
      if s.fwdTCPPhase = .running then
        { s with done := s.done.trySend.1, fwdTCPPhase := .returned }
      else s
  | .fwdWebReturn =>
      if s.fwdWebPhase = .running then
        { s with done := s.done.trySend.1, fwdWebPhase := .returned }
      else s
  | .supWakeDone =>
      if s.supReturned = false ∧ 0 < s.done.buf then
        { s with done := { cap := s.done.cap, buf := s.done.buf - 1 }
                 tcpCloseCount := s.tcpCloseCount + 1
                 wsCloseCount := s.wsCloseCount + 1
                 cancelCalled := true
                 supReturned := true }
      else s
  | .supWakeCtx =>
      if s.supReturned = false ∧ connCtxDone s = true then
        { s with tcpCloseCount := s.tcpCloseCount + 1
                 wsCloseCount := s.wsCloseCount + 1
                 cancelCalled := true
                 supReturned := true }
      else s

/-- Run a schedule of labels from the initial pair state. -/
def pairRun (ls : List PairLabel) : PairState :=
  ls.foldl pairStep initPairState

/-- Closing invariant of the pair system: before the supervisor has
returned no endpoint has been closed, and once it has returned each
endpoint has been closed exactly once. -/
def PairCloseInv (s : PairState) : Prop :=
  (s.supReturned = false → s.tcpCloseCount = 0 ∧ s.wsCloseCount = 0) ∧
  (s.supReturned = true → s.tcpCloseCount = 1 ∧ s.wsCloseCount = 1)

/-! ### The HTTP handler ServeHTTP -/

/-- Observable actions of one ServeHTTP call, in program order. -/
inductive HandlerEvent where
  | upgradeCall (ok : Bool)
  | logUpgradeErr
  | dialCall (ok : Bool)
  | logDialErr
  | wsClose
  | relayRun
deriving DecidableEq

/-- Model of ServeHTTP (websockify.go lines 244-263): upgrade; on
upgrade error log and return; dial tcp to the target; on dial error
log, close the upgraded WebSocket and return; otherwise run
handleConnection under the request context. The inputs say whether the
upgrade and the dial succeed. -/
def ServeHTTP (upgradeOk dialOk : Bool) : List HandlerEvent :=
  if upgradeOk = false then
    [.upgradeCall false, .logUpgradeErr]
  else if dialOk = false then
    [.upgradeCall true, .dialCall false, .logDialErr, .wsClose]
  else
    [.upgradeCall true, .dialCall true, .relayRun]

/-- Is this event a net.Dial call. -/
def isDialEv : HandlerEvent → Bool
  | .dialCall _ => true
  | _ => false

/-- Is this event the Close of the upgraded WebSocket. -/
def isWsCloseEv : HandlerEvent → Bool
  | .wsClose => true
  | _ => false

/-- Is this event the start of the relay (the handleConnection call). -/
def isRelayEv : HandlerEvent → Bool
  | .relayRun => true
  | _ => false

/-- Is this event the dial-failure log line. -/
def isLogDialErrEv : HandlerEvent → Bool
  | .logDialErr => true
  | _ => false

/-! ### The upgrader admission predicate -/

/-- Header lookup as used by the upgrader: the first value stored under
the key, or the empty string when the key is absent (http.Header.Get). -/
def headerGet (h : List (String × String)) (k : String) : String :=
  match h.find? (fun p => p.1 == k) with
  | some p => p.2
  | none => ""

/-- The CheckOrigin function of the package-level upgrader
(websockify.go lines 113-119): admit exactly when the Origin header is
a non-empty string. -/
def checkOrigin (h : List (String × String)) : Bool :=
  headerGet h "Origin" != ""

/-! ### The Serve entry point -/

/-- What ListenAndServe returns when it is called: it never returns a
nil error; it returns either a bind error or ErrServerClosed after the
shutdown goroutine calls Close on the server. -/
inductive LNSResult where
  | bindErr
  | serverClosed
deriving DecidableEq

/-- Model of the sentinel error http.ErrServerClosed. -/
def errServerClosed : String := "http: Server closed"

/-- Model of an os.Getwd failure. -/
def errGetwd : String := "getwd failed"

/-- Model of a listener bind failure. -/
def errBind : String := "listen: bind failed"

/-- First refusal log line of the web-root-equals-CWD path. -/
def refusalLine : String :=
  "Refusing to serve static content from the current working directory."

/-- Observable outcome of one Serve call: the log lines emitted, the
mux routes registered, whether ListenAndServe was called, and the
returned error (none models a nil error). -/
structure ServeOutcome where
  logs : List String
  routes : List String
  listenCalled : Bool
  err : Option String
deriving DecidableEq

/-- Model of Serve (websockify.go lines 70-111): read the working
directory (cwd none models an os.Getwd error, returned as is); if the
web root equals the working directory, log the refusal lines and
return nil without registering routes or listening; otherwise register
the static route when the web root is non-empty, register /websockify,
and return the result of ListenAndServe. -/
def Serve (webRoot target listener : String) (cwd : Option String)
    (lns : LNSResult) : ServeOutcome :=
  match cwd with
  | none => { logs := [], routes := [], listenCalled := false, err := some errGetwd }
  | some path =>
    if webRoot = path then
      { logs := [refusalLine,
                 "Please use the --web-root flag to specify a different directory.",
                 "Exiting."]
        routes := []
        listenCalled := false
        err := none }
    else if webRoot = "" then
      { logs := ["No web root specified; serving no static content.",
                 "Serving WS of " ++ target ++ " at " ++ listener]
        routes := ["/websockify"]
        listenCalled := true
        err := some (match lns with
                     | .bindErr => errBind
                     | .serverClosed => errServerClosed) }
    else
      { logs := ["Serving " ++ webRoot ++ " at " ++ listener,
                 "Serving WS of " ++ target ++ " at " ++ listener]
        routes := ["/", "/websockify"]
        listenCalled := true
        err := some (match lns with
                     | .bindErr => errBind
                     | .serverClosed => errServerClosed) }

/-! ### Theorems -/

/-- Helper: the WriteMessage calls of a forwardTCP trace are exactly
the successful reads, each tagged BinaryMessage, in order. -/
theorem forwardTCP_writes_eq (env : List TCPEnvStep) :
    wsWriteCalls (forwardTCP env).1
      = (okReads (forwardTCP env).1).map (fun d => (BinaryMessage, d)) := by
  induction env with
  | nil => simp [forwardTCP, wsWriteCalls, okReads]
  | cons s rest ih =>
    cases h1 : s.ctxDone with
    | true => simp [forwardTCP, h1, wsWriteCalls, okReads]
    | false =>
      cases hr : s.read with
      | ok data =>
        cases h3 : s.wsWriteErr with
        | true => simp [forwardTCP, h1, hr, h3, wsWriteCalls, okReads]
        | false => simp [forwardTCP, h1, hr, h3, wsWriteCalls, okReads, ih]
      | timeout =>
        cases h2 : s.ctxDoneAfterTimeout with
        | true => simp [forwardTCP, h1, hr, h2, wsWriteCalls, okReads]
        | false => simp [forwardTCP, h1, hr, h2, wsWriteCalls, okReads, ih]
      | readErr => simp [forwardTCP, h1, hr, wsWriteCalls, okReads]

/-- C1: for every TCP read by forwardTCP that succeeds, exactly one
WriteMessage call is performed, with type BinaryMessage and exactly
the bytes just read, in read order and with no coalescing across
reads; consequently concatenating all emitted payloads reconstructs
the TCP byte stream exactly. -/
theorem forwardTCP_framing (env : List TCPEnvStep) :
    wsWriteCalls (forwardTCP env).1
        = (okReads (forwardTCP env).1).map (fun d => (BinaryMessage, d)) ∧
    ((wsWriteCalls (forwardTCP env).1).map Prod.snd).flatten
        = (okReads (forwardTCP env).1).flatten := by
  refine ⟨forwardTCP_writes_eq env, ?_⟩
  rw [forwardTCP_writes_eq env, List.map_map]
  simp [Function.comp]

/-- Helper: the TCP Write calls of a forwardWeb trace are exactly the
payloads of the received messages, in order, with the type dropped. -/
theorem forwardWeb_writes_eq (env : List WebEnvStep) :
    tcpWriteCalls (forwardWeb env).1 = (recvMsgs (forwardWeb env).1).map Prod.snd := by
  induction env with
  | nil => simp [forwardWeb, tcpWriteCalls, recvMsgs]
  | cons s rest ih =>
    cases h0 : s.panics with
    | true => simp [forwardWeb, h0, tcpWriteCalls, recvMsgs]
    | false =>
      cases h1 : s.ctxDone with
      | true => simp [forwardWeb, h0, h1, tcpWriteCalls, recvMsgs]
      | false =>
        cases hr : s.read with
        | ok t d =>
          cases h3 : s.tcpWriteErr with
          | true => simp [forwardWeb, h0, h1, hr, h3, tcpWriteCalls, recvMsgs]
          | false => simp [forwardWeb, h0, h1, hr, h3, tcpWriteCalls, recvMsgs, ih]
        | closeFrame => simp [forwardWeb, h0, h1, hr, tcpWriteCalls, recvMsgs]
        | timeout =>
          cases h2 : s.ctxDoneAfterTimeout with
          | true => simp [forwardWeb, h0, h1, hr, h2, tcpWriteCalls, recvMsgs]
          | false => simp [forwardWeb, h0, h1, hr, h2, tcpWriteCalls, recvMsgs, ih]
        | readErr => simp [forwardWeb, h0, h1, hr, tcpWriteCalls, recvMsgs]

/-- C2: every WebSocket message received by forwardWeb produces exactly
one TCP Write call whose data is exactly the message payload, in
receive order, with the text or binary message type ignored; hence the
concatenation of received payloads equals, byte for byte, the sequence
of bytes handed to the TCP endpoint. -/
theorem forwardWeb_framing (env : List WebEnvStep) :
    tcpWriteCalls (forwardWeb env).1 = (recvMsgs (forwardWeb env).1).map Prod.snd ∧
    (tcpWriteCalls (forwardWeb env).1).flatten
        = ((recvMsgs (forwardWeb env).1).map Prod.snd).flatten := by
  refine ⟨forwardWeb_writes_eq env, ?_⟩
  rw [forwardWeb_writes_eq env]

/-- Helper: in every forwardTCP trace, after an observed stop (a
non-timeout read error or an observed cancellation) no WriteMessage
call occurs. -/
theorem forwardTCP_no_write_after_stop (env : List TCPEnvStep) :
    noWriteAfter isStopTCP isWsWriteEv (forwardTCP env).1 = true := by
  induction env with
  | nil => simp [forwardTCP, noWriteAfter]
  | cons s rest ih =>
    cases h1 : s.ctxDone with
    | true => simp [forwardTCP, h1, noWriteAfter, isStopTCP, isWsWriteEv]
    | false =>
      cases hr : s.read with
      | ok data =>
        cases h3 : s.wsWriteErr with
        | true => simp [forwardTCP, h1, hr, h3, noWriteAfter, isStopTCP, isWsWriteEv]
        | false => simp [forwardTCP, h1, hr, h3, noWriteAfter, isStopTCP, isWsWriteEv, ih]
      | timeout =>
        cases h2 : s.ctxDoneAfterTimeout with
        | true => simp [forwardTCP, h1, hr, h2, noWriteAfter, isStopTCP, isWsWriteEv]
        | false => simp [forwardTCP, h1, hr, h2, noWriteAfter, isStopTCP, isWsWriteEv, ih]
      | readErr => simp [forwardTCP, h1, hr, noWriteAfter, isStopTCP, isWsWriteEv]

/-- Helper: in every forwardWeb trace, after an observed stop (a close
error, another non-timeout receive error, or an observed cancellation)
no TCP Write call occurs. -/
theorem forwardWeb_no_write_after_stop (env : List WebEnvStep) :
    noWriteAfter isStopWeb isTcpWriteEv (forwardWeb env).1 = true := by
  induction env with
  | nil => simp [forwardWeb, noWriteAfter]
  | cons s rest ih =>
    cases h0 : s.panics with
    | true => simp [forwardWeb, h0, noWriteAfter, isStopWeb, isTcpWriteEv]
    | false =>
      cases h1 : s.ctxDone with
      | true => simp [forwardWeb, h0, h1, noWriteAfter, isStopWeb, isTcpWriteEv]
      | false =>
        cases hr : s.read with
        | ok t d =>
          cases h3 : s.tcpWriteErr with
          | true => simp [forwardWeb, h0, h1, hr, h3, noWriteAfter, isStopWeb, isTcpWriteEv]
          | false => simp [forwardWeb, h0, h1, hr, h3, noWriteAfter, isStopWeb, isTcpWriteEv, ih]
        | closeFrame => simp [forwardWeb, h0, h1, hr, noWriteAfter, isStopWeb, isTcpWriteEv]
        | timeout =>
          cases h2 : s.ctxDoneAfterTimeout with
          | true => simp [forwardWeb, h0, h1, hr, h2, noWriteAfter, isStopWeb, isTcpWriteEv]
          | false => simp [forwardWeb, h0, h1, hr, h2, noWriteAfter, isStopWeb, isTcpWriteEv, ih]
        | readErr => simp [forwardWeb, h0, h1, hr, noWriteAfter, isStopWeb, isTcpWriteEv]

/-- C7: in both forwarders, once the loop has observed a non-timeout
read or receive error on its input endpoint, or observed cancellation
of the child token, it performs no further write to its output
endpoint before returning: no WriteMessage in the TCP to WS direction,
no TCP Write in the WS to TCP direction. -/
theorem forwarders_no_write_after_stop :
    (∀ env : List TCPEnvStep,
        noWriteAfter isStopTCP isWsWriteEv (forwardTCP env).1 = true) ∧
    (∀ env : List WebEnvStep,
        noWriteAfter isStopWeb isTcpWriteEv (forwardWeb env).1 = true) :=
  ⟨forwardTCP_no_write_after_stop, forwardWeb_no_write_after_stop⟩

/-- C8: a deadline-exceeded read is not a failure. In forwardTCP and
forwardWeb alike, when a read times out and the token is not
cancelled, the loop emits no done signal and continues with the rest
of its environment unchanged; when the token is cancelled at the
re-check, the loop returns with a cancellation exit, not an error
exit. -/
theorem timeout_is_not_failure (s : TCPEnvStep) (rest : List TCPEnvStep)
    (t : WebEnvStep) (wrest : List WebEnvStep)
    (hs1 : s.ctxDone = false) (hs2 : s.read = .timeout)
    (ht0 : t.panics = false) (ht1 : t.ctxDone = false) (ht2 : t.read = .timeout) :
    (s.ctxDoneAfterTimeout = false →
        forwardTCP (s :: rest)
          = (.setDeadline :: .readTimeout :: (forwardTCP rest).1, (forwardTCP rest).2) ∧
        countB isDoneSignalTCP (forwardTCP (s :: rest)).1
          = countB isDoneSignalTCP (forwardTCP rest).1) ∧
    (s.ctxDoneAfterTimeout = true →
        (forwardTCP (s :: rest)).2 = .cancelledOnTimeout) ∧
    (t.ctxDoneAfterTimeout = false →
        forwardWeb (t :: wrest)
          = (.setDeadline :: .recvTimeout :: (forwardWeb wrest).1, (forwardWeb wrest).2) ∧
        countB isDoneSignalWeb (forwardWeb (t :: wrest)).1
          = countB isDoneSignalWeb (forwardWeb wrest).1) ∧
    (t.ctxDoneAfterTimeout = true →
        (forwardWeb (t :: wrest)).2 = .cancelledOnTimeout) := by
  refine ⟨fun h2 => ?_, fun h2 => ?_, fun h2 => ?_, fun h2 => ?_⟩
  · exact ⟨by simp [forwardTCP, hs1, hs2, h2],
      by simp [forwardTCP, hs1, hs2, h2, countB, isDoneSignalTCP]⟩
  · simp [forwardTCP, hs1, hs2, h2]
  · exact ⟨by simp [forwardWeb, ht0, ht1, ht2, h2],
      by simp [forwardWeb, ht0, ht1, ht2, h2, countB, isDoneSignalWeb]⟩
  · simp [forwardWeb, ht0, ht1, ht2, h2]

/-- Witness for the timeout theorem at a concrete step. -/
theorem timeout_is_not_failure_witness :
    forwardTCP [⟨false, .timeout, false, false⟩]
      = ([.setDeadline, .readTimeout], .outOfSteps) ∧
    (forwardWeb [⟨false, false, .timeout, true, false⟩]).2
      = .cancelledOnTimeout :=
  ⟨((timeout_is_not_failure ⟨false, .timeout, false, false⟩ []
        ⟨false, false, .timeout, true, false⟩ [] rfl rfl rfl rfl rfl).1 rfl).1,
    (timeout_is_not_failure ⟨false, .timeout, false, false⟩ []
        ⟨false, false, .timeout, true, false⟩ [] rfl rfl rfl rfl rfl).2.2.2 rfl⟩

/-- Helper: whenever forwardTCP returns, its trace holds exactly one
done signal, from the deferred nonblocking send. -/
theorem forwardTCP_done_once (env : List TCPEnvStep)
    (h : (forwardTCP env).2 ≠ .outOfSteps) :
    countB isDoneSignalTCP (forwardTCP env).1 = 1 := by
  induction env with
  | nil => simp [forwardTCP] at h
  | cons s rest ih =>
    cases h1 : s.ctxDone with
    | true => simp [forwardTCP, h1, countB, isDoneSignalTCP]
    | false =>
      cases hr : s.read with
      | ok data =>
        cases h3 : s.wsWriteErr with
        | true => simp [forwardTCP, h1, hr, h3, countB, isDoneSignalTCP]
        | false =>
          simp only [forwardTCP, h1, hr, h3] at h ⊢
          simp only [Bool.false_eq_true, if_false, if_neg] at h ⊢
          simp [countB, isDoneSignalTCP]
          exact ih h
      | timeout =>
        cases h2 : s.ctxDoneAfterTimeout with
        | true => simp [forwardTCP, h1, hr, h2, countB, isDoneSignalTCP]
        | false =>
          simp only [forwardTCP, h1, hr, h2] at h ⊢
          simp only [Bool.false_eq_true, if_false, if_neg] at h ⊢
          simp [countB, isDoneSignalTCP]
          exact ih h
      | readErr => simp [forwardTCP, h1, hr, countB, isDoneSignalTCP]

/-- Helper: whenever forwardWeb returns, also through the recovered
panic path, its trace holds exactly one done signal. -/
theorem forwardWeb_done_once (env : List WebEnvStep)
    (h : (forwardWeb env).2 ≠ .outOfSteps) :
    countB isDoneSignalWeb (forwardWeb env).1 = 1 := by
  induction env with
  | nil => simp [forwardWeb] at h
  | cons s rest ih =>
    cases h0 : s.panics with
    | true => simp [forwardWeb, h0, countB, isDoneSignalWeb]
    | false =>
      cases h1 : s.ctxDone with
      | true => simp [forwardWeb, h0, h1, countB, isDoneSignalWeb]
      | false =>
        cases hr : s.read with
        | ok t d =>
          cases h3 : s.tcpWriteErr with
          | true => simp [forwardWeb, h0, h1, hr, h3, countB, isDoneSignalWeb]
          | false =>
            simp only [forwardWeb, h0, h1, hr, h3] at h ⊢
            simp only [Bool.false_eq_true, if_false, if_neg] at h ⊢
            simp [countB, isDoneSignalWeb]
            exact ih h
        | closeFrame => simp [forwardWeb, h0, h1, hr, countB, isDoneSignalWeb]
        | timeout =>
          cases h2 : s.ctxDoneAfterTimeout with
          | true => simp [forwardWeb, h0, h1, hr, h2, countB, isDoneSignalWeb]
          | false =>
            simp only [forwardWeb, h0, h1, hr, h2] at h ⊢
            simp only [Bool.false_eq_true, if_false, if_neg] at h ⊢
            simp [countB, isDoneSignalWeb]
            exact ih h
        | readErr => simp [forwardWeb, h0, h1, hr, countB, isDoneSignalWeb]

/-- C9: the done channel of handleConnection is created with capacity
2; each forwarder performs exactly one done signal, through its
deferred logic, on every return path, the recovered panic path of
forwardWeb included; the signal is a nonblocking send, a send on the
fresh channel and a second send after it both succeed, the channel
would not block after one signal, and a send on any capacity-2
channel holding at most one value succeeds. -/
theorem done_signal_discipline :
    mkDoneChan.cap = 2 ∧
    (∀ env : List TCPEnvStep, (forwardTCP env).2 ≠ .outOfSteps →
        countB isDoneSignalTCP (forwardTCP env).1 = 1) ∧
    (∀ env : List WebEnvStep, (forwardWeb env).2 ≠ .outOfSteps →
        countB isDoneSignalWeb (forwardWeb env).1 = 1) ∧
    mkDoneChan.trySend.2 = true ∧
    mkDoneChan.trySend.1.trySend.2 = true ∧
    mkDoneChan.trySend.1.sendWouldBlock = false ∧
    (∀ c : Chan, c.cap = 2 → c.buf ≤ 1 → c.trySend.2 = true) := by
  refine ⟨rfl, forwardTCP_done_once, forwardWeb_done_once,
    by decide, by decide, by decide, ?_⟩
  intro c h1 h2
  simp [Chan.trySend, h1, Nat.lt_succ_iff.mpr h2]

/-- Witness for the done-signal theorem: a read error, a recovered
panic and a partially filled channel, all concrete. -/
theorem done_signal_discipline_witness :
    countB isDoneSignalTCP (forwardTCP [⟨false, .readErr, false, false⟩]).1 = 1 ∧
    countB isDoneSignalWeb (forwardWeb [⟨false, true, .readErr, false, false⟩]).1 = 1 ∧
    Chan.trySend ⟨2, 1⟩ = (⟨2, 2⟩, true) :=
  ⟨done_signal_discipline.2.1 [⟨false, .readErr, false, false⟩] (by decide),
   done_signal_discipline.2.2.1 [⟨false, true, .readErr, false, false⟩] (by decide),
   by
    have := done_signal_discipline.2.2.2.2.2.2 ⟨2, 1⟩ rfl (by decide)
    decide⟩

/-- Helper: one interleaving step preserves the closing invariant. -/
theorem pairStep_closeInv (s : PairState) (l : PairLabel) (h : PairCloseInv s) :
    PairCloseInv (pairStep s l) := by
  obtain ⟨h0, h1⟩ := h
  cases l with
  | cancelParent => exact ⟨h0, h1⟩
  | fwdTCPReturn =>
    by_cases hg : s.fwdTCPPhase = .running
    · simp only [pairStep, if_pos hg]; exact ⟨h0, h1⟩
    · simp only [pairStep, if_neg hg]; exact ⟨h0, h1⟩
  | fwdWebReturn =>
    by_cases hg : s.fwdWebPhase = .running
    · simp only [pairStep, if_pos hg]; exact ⟨h0, h1⟩
    · simp only [pairStep, if_neg hg]; exact ⟨h0, h1⟩
  | supWakeDone =>
    by_cases hg : s.supReturned = false ∧ 0 < s.done.buf
    · simp only [pairStep, if_pos hg, PairCloseInv]
      refine ⟨fun hc => by simp at hc, fun _ => ?_⟩
      obtain ⟨a, b⟩ := h0 hg.1
      constructor <;> omega
    · simp only [pairStep, if_neg hg]; exact ⟨h0, h1⟩
  | supWakeCtx =>
    by_cases hg : s.supReturned = false ∧ connCtxDone s = true
    · simp only [pairStep, if_pos hg, PairCloseInv]
      refine ⟨fun hc => by simp at hc, fun _ => ?_⟩
      obtain ⟨a, b⟩ := h0 hg.1
      constructor <;> omega
    · simp only [pairStep, if_neg hg]; exact ⟨h0, h1⟩

/-- Helper: the closing invariant holds along every schedule. -/
theorem pairRun_closeInv (ls : List PairLabel) :
    ∀ s : PairState, PairCloseInv s → PairCloseInv (ls.foldl pairStep s) := by
  induction ls with
  | nil => exact fun s h => h
  | cons l rest ih => exact fun s h => ih (pairStep s l) (pairStep_closeInv s l h)

/-- C3 counterexample: when the parent token is cancelled while both
forwarders are blocked, handleConnection wakes on the context, closes
both endpoints and returns while both forwarder tasks are still
running, refuting the claim that both forwarders have returned
whenever the supervisor returns. -/
theorem handleConnection_counterexample :
    (pairRun [.cancelParent, .supWakeCtx]).supReturned = true ∧
    (pairRun [.cancelParent, .supWakeCtx]).fwdTCPPhase = .running ∧
    (pairRun [.cancelParent, .supWakeCtx]).fwdWebPhase = .running := by
  decide

/-- C3 amended: whenever handleConnection returns, on every exit path
(done signal from either forwarder, or cancellation of the lifetime
token), both the WebSocket endpoint and the TCP endpoint have been
closed exactly once; the forwarder tasks need not have returned yet. -/
theorem handleConnection_closes_both (ls : List PairLabel)
    (h : (pairRun ls).supReturned = true) :
    (pairRun ls).tcpCloseCount = 1 ∧ (pairRun ls).wsCloseCount = 1 :=
  (pairRun_closeInv ls initPairState
    ⟨fun _ => ⟨rfl, rfl⟩, fun hc => by simp [initPairState, mkDoneChan] at hc⟩).2 h

/-- Witness for the amended supervisor theorem on a concrete schedule
in which forwardWeb fails first and the supervisor wakes on done. -/
theorem handleConnection_closes_both_witness :
    (pairRun [.fwdWebReturn, .supWakeDone]).tcpCloseCount = 1 ∧
    (pairRun [.fwdWebReturn, .supWakeDone]).wsCloseCount = 1 :=
  handleConnection_closes_both [.fwdWebReturn, .supWakeDone] (by decide)

/-- C4: the handler dials exactly once after a successful upgrade and
never dials after a failed upgrade; after a failed upgrade it starts
no relay and closes nothing; after a failed dial it logs the error,
closes the upgraded WebSocket as its last action before returning, and
starts no relay; after a successful dial it runs the relay. -/
theorem serveHTTP_dial_discipline (d : Bool) :
    countB isDialEv (ServeHTTP true d) = 1 ∧
    countB isDialEv (ServeHTTP false d) = 0 ∧
    countB isRelayEv (ServeHTTP false d) = 0 ∧
    countB isWsCloseEv (ServeHTTP false d) = 0 ∧
    countB isLogDialErrEv (ServeHTTP true false) = 1 ∧
    countB isWsCloseEv (ServeHTTP true false) = 1 ∧
    countB isRelayEv (ServeHTTP true false) = 0 ∧
    (ServeHTTP true false).getLast? = some .wsClose ∧
    countB isRelayEv (ServeHTTP true true) = 1 := by
  cases d <;> decide

/-- C5: the admission predicate of the upgrader accepts a request
exactly when its Origin header is non-empty; a request whose headers
hold no Origin entry is rejected; any request whose first Origin entry
is non-empty is admitted, whatever its value, with no allowlist. -/
theorem upgrader_origin_admission (h : List (String × String)) :
    (checkOrigin h = true ↔ headerGet h "Origin" ≠ "") ∧
    (h.find? (fun p => p.1 == "Origin") = none → checkOrigin h = false) ∧
    (∀ v rest, v ≠ "" → checkOrigin (("Origin", v) :: rest) = true) ∧
    (∀ rest, checkOrigin (("Origin", "") :: rest) = false) := by
  refine ⟨?_, ?_, ?_, ?_⟩
  · simp [checkOrigin]
  · intro hf; simp [checkOrigin, headerGet, hf]
  · intro v rest hv; simp [checkOrigin, headerGet, hv]
  · intro rest; simp [checkOrigin, headerGet]

/-- Witness for the origin admission theorem on concrete headers. -/
theorem upgrader_origin_admission_witness :
    checkOrigin [("Origin", "http://example.com")] = true ∧
    checkOrigin [("Host", "example.com")] = false :=
  ⟨(upgrader_origin_admission []).2.2.1 "http://example.com" [] (by decide),
   (upgrader_origin_admission [("Host", "example.com")]).2.1 (by decide)⟩

/-- C6: when the web root equals the working directory, Serve logs the
refusal, registers no route, never calls ListenAndServe, and returns a
nil error. -/
theorem serve_cwd_refusal (webRoot target listener : String)
    (cwd : Option String) (lns : LNSResult) (h : cwd = some webRoot) :
    (Serve webRoot target listener cwd lns).listenCalled = false ∧
    (Serve webRoot target listener cwd lns).routes = [] ∧
    (Serve webRoot target listener cwd lns).err = none ∧
    refusalLine ∈ (Serve webRoot target listener cwd lns).logs := by
  subst h
  simp [Serve]

/-- Witness for the refusal theorem at a concrete configuration. -/
theorem serve_cwd_refusal_witness :
    (Serve "/build" "localhost:5900" ":8080" (some "/build") .serverClosed).listenCalled
        = false ∧
    (Serve "/build" "localhost:5900" ":8080" (some "/build") .serverClosed).routes = [] ∧
    (Serve "/build" "localhost:5900" ":8080" (some "/build") .serverClosed).err = none ∧
    refusalLine
        ∈ (Serve "/build" "localhost:5900" ":8080" (some "/build") .serverClosed).logs :=
  serve_cwd_refusal "/build" "localhost:5900" ":8080" (some "/build") .serverClosed rfl

/-- C10: when Serve reaches ListenAndServe and the lifetime context is
cancelled after the listener started, the server is closed and Serve
returns the sentinel ErrServerClosed, a non-nil error; and across all
inputs Serve returns a nil error exactly on the path where the web
root equals the working directory. -/
theorem serve_err_semantics (webRoot target listener : String)
    (cwd : Option String) (lns : LNSResult) :
    ((Serve webRoot target listener cwd lns).listenCalled = true →
        lns = .serverClosed →
        (Serve webRoot target listener cwd lns).err = some errServerClosed) ∧
    ((Serve webRoot target listener cwd lns).err = none ↔ cwd = some webRoot) := by
  cases cwd with
  | none =>
    refine ⟨fun hl _ => ?_, ?_⟩
    · simp [Serve] at hl
    · simp [Serve, errGetwd]
  | some p =>
    by_cases hp : webRoot = p
    · subst hp
      refine ⟨fun hl _ => ?_, ?_⟩
      · simp [Serve] at hl
      · simp [Serve]
    · cases lns with
      | bindErr =>
        refine ⟨fun _ hl => ?_, ?_⟩
        · exact absurd hl (by decide)
        · by_cases he : webRoot = ""
          · subst he
            simp [Serve, hp, errBind]
            exact fun hc => hp hc.symm
          · simp [Serve, hp, he, errBind]
            exact fun hc => hp hc.symm
      | serverClosed =>
        refine ⟨fun _ _ => ?_, ?_⟩
        · by_cases he : webRoot = ""
          · subst he; simp [Serve, hp]
          · simp [Serve, hp, he]
        · by_cases he : webRoot = ""
          · subst he
            simp [Serve, hp, errServerClosed]
            exact fun hc => hp hc.symm
          · simp [Serve, hp, he, errServerClosed]
            exact fun hc => hp hc.symm

/-- Witness: with an empty web root, a distinct working directory and
a cancellation-driven shutdown, Serve returns ErrServerClosed. -/
theorem serve_err_semantics_witness :
    (Serve "" "localhost:5900" ":8080" (some "/build") .serverClosed).err
      = some errServerClosed :=
  (serve_err_semantics "" "localhost:5900" ":8080" (some "/build") .serverClosed).1
    (by decide) rfl

end Websockify
